import Mathlib

/-!
Verification of the business-object-search rule-repository core:
a shallow embedding of `src/config.py`, `src/business_object_search/models.py`
and `src/business_object_search/db.py`, with theorems about connection
lifecycle, session scoping, result materialization, constraint setup and
enumerated-field validation.
-/

/-! ### Configuration (`src/config.py`) -/

/-- `config.RULE_CATEGORIES` from `src/config.py`. -/
def RULE_CATEGORIES : List String :=
  ["data", "validation", "calculation", "process", "reporting", "compliance"]

/-- `config.OBLIGATION_LEVELS` from `src/config.py`. -/
def OBLIGATION_LEVELS : List String :=
  ["mandatory", "conditional", "optional"]

/-! ### Enumerated-field validation (`src/business_object_search/models.py`)

Python raises `ValueError(f"Invalid {field}: {v}. Must be one of {allowed}")`;
we model the error structurally, keeping the three pieces of information the
message carries: the field name, the offending value and the allowed set. -/

structure EnumValidationError where
  field : String
  value : String
  allowed : List String
deriving Repr, DecidableEq

/-- Python's `str.lower`, character-wise case folding (all configured
enumeration members are ASCII, where `Char.toLower` agrees with Python). -/
def pyLower (s : String) : String := ⟨s.data.map Char.toLower⟩

/-- Common body of the four `@validator(..., pre=True)` methods on string
input (`models.py`).  Python:
`if v.lower() not in [x.lower() for x in allowed]: raise ValueError(...)`
then `for x in allowed: if v.lower() == x.lower(): return x`, falling
through to `return v`. -/
def validateEnum (field : String) (allowed : List String) (v : String) :
    Except EnumValidationError String :=
  if (allowed.map pyLower).contains (pyLower v) then
    match allowed.find? (fun x => pyLower v == pyLower x) with
    | some x => .ok x
    | none => .ok v
  else
    .error ⟨field, v, allowed⟩

/-- `RuleBase.validate_category` (`models.py`), on string input. -/
def RuleBase.validate_category (v : String) : Except EnumValidationError String :=
  validateEnum "category" RULE_CATEGORIES v

/-- `RuleBase.validate_obligation_level` (`models.py`), on string input. -/
def RuleBase.validate_obligation_level (v : String) : Except EnumValidationError String :=
  validateEnum "obligation_level" OBLIGATION_LEVELS v

example : RuleBase.validate_category "VALIDATION" = .ok "validation" := rfl
example : RuleBase.validate_category "bogus" =
    .error ⟨"category", "bogus", RULE_CATEGORIES⟩ := rfl
example : RuleBase.validate_obligation_level "Mandatory" = .ok "mandatory" := rfl

/-- `RuleUpdate.validate_category` (`models.py`): `if v is None: return v`,
then the same string validation as `RuleBase`. -/
def RuleUpdate.validate_category : Option String → Except EnumValidationError (Option String)
  | none => .ok none
  | some s => (validateEnum "category" RULE_CATEGORIES s).map some

/-- `RuleUpdate.validate_obligation_level` (`models.py`). -/
def RuleUpdate.validate_obligation_level : Option String → Except EnumValidationError (Option String)
  | none => .ok none
  | some s => (validateEnum "obligation_level" OBLIGATION_LEVELS s).map some

/-! ### Connection manager (`src/business_object_search/db.py`)

`Neo4jDatabase` holds a single optional driver (`self._driver`).  Drivers
are identified by a creation counter, so "how many driver objects were ever
created" is observable.  Sessions are identified by a counter as well;
`openSessions` tracks the sessions currently open against the store. -/

/-- The exception classes `connect` can surface, from `neo4j.exceptions`,
plus the spec's `ConnectionVerificationFailed`, which appears in the spec's
error taxonomy but is never raised anywhere in the source. -/
inductive DBError where
  | ServiceUnavailable (msg : String)
  | AuthError (msg : String)
  | ConnectionVerificationFailed (msg : String)
deriving Repr, DecidableEq

/-- Whether an `Except DBError` result is the spec's distinct
`ConnectionVerificationFailed` error. -/
def errIsVerificationFailed {α : Type} : Except DBError α → Bool
  | .error (.ConnectionVerificationFailed _) => true
  | _ => false

/-- Outcome of the liveness probe `session.run("RETURN 1 AS test")`:
the transport may fail, the credentials may be rejected, or the round trip
succeeds and yields the value bound to `test`. -/
inductive ProbeOutcome where
  | transportFail (msg : String)
  | authFail (msg : String)
  | value (v : Int)
deriving Repr, DecidableEq

/-- Mutable state of the `Neo4jDatabase` singleton together with the
observable driver/session bookkeeping of the store client.  `driver` is
`self._driver`; `driversCreated` counts calls to `GraphDatabase.driver`;
`openSessions` are the currently open session ids; `nextSession` is the id
the next `driver.session(...)` call will allocate. -/
structure DBState where
  driver : Option Nat
  driversCreated : Nat
  openSessions : List Nat
  nextSession : Nat
deriving Repr, DecidableEq

/-- `Neo4jDatabase.connect` (`db.py`).  If `self._driver` is unset, a new
driver object is created and *stored first*, then the probe runs inside a
`with`-scoped session (that session is closed on every path by the `with`
block and is therefore not tracked here).  A probe value `≠ 1` raises
`ServiceUnavailable("Database connection test failed")`.  The
`except (ServiceUnavailable, AuthError)` clause logs and re-raises, leaving
`self._driver` set.  If `self._driver` is already set, it is returned with
no probe at all. -/
def connect (st : DBState) (probe : ProbeOutcome) : Except DBError Nat × DBState :=
  match st.driver with
  | some d => (.ok d, st)
  | none =>
    let d := st.driversCreated
    let st1 : DBState :=
      { st with driver := some d, driversCreated := st.driversCreated + 1 }
    match probe with
    | .transportFail msg => (.error (.ServiceUnavailable msg), st1)
    | .authFail msg => (.error (.AuthError msg), st1)
    | .value v =>
      if v ≠ 1 then
        (.error (.ServiceUnavailable "Database connection test failed"), st1)
      else
        (.ok d, st1)

/-- `Neo4jDatabase.get_session` (`db.py`): `driver = self.connect()`, then
`session = driver.session(database=self.database)`, then `yield session`
inside `try`, with `session.close()` in `finally`.  The body is any
computation using the session that either returns a value or raises; the
`finally` runs on both paths. -/
def get_session {α : Type} (st : DBState) (probe : ProbeOutcome)
    (body : Nat → Except DBError α) : Except DBError α × DBState :=
  match connect st probe with
  | (.error e, st1) => (.error e, st1)
  | (.ok _d, st1) =>
    let sid := st1.nextSession
    let st2 : DBState :=
      { st1 with openSessions := st1.openSessions ++ [sid],
                 nextSession := sid + 1 }
    let r := body sid
    let st3 : DBState := { st2 with openSessions := st2.openSessions.erase sid }
    (r, st3)

/-! ### Session/query executor (`db.py`) -/

/-- A result record as produced by the store; `data` is `Record.data()`,
the record's key→value mapping (value type `V` abstract). -/
structure NeoRecord (V : Type) where
  data : List (String × V)
deriving Repr, DecidableEq

/-- The store's response to a parameterized query: the ordered rows it
yields for `session.run(query, params)`. -/
def Store (V : Type) : Type := String → List (String × V) → List (NeoRecord V)

/-- The raw handle `session.run` returns: it is backed by the session it
was created in. -/
structure QueryResult (V : Type) where
  session : Nat
  records : List (NeoRecord V)
deriving Repr, DecidableEq

/-- Python `params or {}` for an optional parameter mapping. -/
def orEmpty {V : Type} (params : Option (List (String × V))) : List (String × V) :=
  match params with
  | none => []
  | some ps => ps

/-- `Neo4jDatabase.execute_query` (`db.py`): runs the query in a scoped
session and returns the raw result handle; the `with` block closes the
session before the handle reaches the caller. -/
def execute_query {V : Type} (st : DBState) (probe : ProbeOutcome) (store : Store V)
    (query : String) (params : Option (List (String × V))) :
    Except DBError (QueryResult V) × DBState :=
  get_session st probe (fun sid => .ok ⟨sid, store query (orEmpty params)⟩)

/-- `Neo4jDatabase.fetch_all` (`db.py`): runs the query in a scoped session
and materializes `[record.data() for record in result]` while the session
is still open. -/
def fetch_all {V : Type} (st : DBState) (probe : ProbeOutcome) (store : Store V)
    (query : String) (params : Option (List (String × V))) :
    Except DBError (List (List (String × V))) × DBState :=
  get_session st probe
    (fun _sid => .ok ((store query (orEmpty params)).map NeoRecord.data))

/-- `Result.single()` of the store client as exercised by this repository:
the first record, or none when the result is empty.  (On a multi-row
result the client warns and takes the first row; no claim here exercises
that case.) -/
def resultSingle {V : Type} (rs : List (NeoRecord V)) : Option (NeoRecord V) :=
  rs.head?

/-- `Neo4jDatabase.fetch_one` (`db.py`): `record = result.single()`, then
`return record.data() if record else None`. -/
def fetch_one {V : Type} (st : DBState) (probe : ProbeOutcome) (store : Store V)
    (query : String) (params : Option (List (String × V))) :
    Except DBError (Option (List (String × V))) × DBState :=
  get_session st probe
    (fun _sid => .ok ((resultSingle (store query (orEmpty params))).map NeoRecord.data))

/-! ### Constraint initializer (`db.py`) -/

/-- The three constraint statements of `Neo4jDatabase.create_constraints`,
verbatim from `db.py`. -/
def constraints : List String :=
  [ "CREATE CONSTRAINT rule_id IF NOT EXISTS FOR (r:Rule) REQUIRE r.rule_id IS UNIQUE",
    "CREATE CONSTRAINT data_element_id IF NOT EXISTS FOR (d:DataElement) REQUIRE d.element_id IS UNIQUE",
    "CREATE CONSTRAINT category_name IF NOT EXISTS FOR (c:Category) REQUIRE c.name IS UNIQUE" ]

/-- The `for constraint in constraints:` loop of `create_constraints`:
each statement is issued through `ex` (abstracting
`self.execute_query(constraint)`); on exception the `except` clause logs
and re-raises, aborting the loop. -/
def constraintsLoop (ex : String → Except DBError Unit) :
    List String → Except DBError Unit
  | [] => .ok ()
  | c :: cs =>
    match ex c with
    | .error e => .error e
    | .ok _ => constraintsLoop ex cs

/-- `Neo4jDatabase.create_constraints` (`db.py`). -/
def create_constraints (ex : String → Except DBError Unit) : Except DBError Unit :=
  constraintsLoop ex constraints

/-- Modelled from the spec: the graph store's `IF NOT EXISTS`
constraint-creation semantics (the store itself is an external
collaborator, not code under `src/`) — "issues each constraint-creation
statement using an 'if not already present' form so repeated invocation
... is a no-op once constraints exist". -/
def applyIfNotExists (existing : List String) (c : String) : List String :=
  if c ∈ existing then existing else existing ++ [c]

/-- One full run of `create_constraints` against a store holding the given
set of already-existing constraints, under `IF NOT EXISTS` semantics. -/
def runConstraints (existing : List String) : List String :=
  constraints.foldl applyIfNotExists existing

/-! ### Rule records and partial updates (`models.py`) -/

/-- The stored `Rule` model (`models.py`); dates are kept abstract as
strings, lists as given by the caller. -/
structure Rule where
  rule_id : String
  name : String
  description : String
  category : String
  obligation_level : String
  data_elements : List String
  conditions : List String
  actions : List String
  exceptions : List String
  thresholds : List String
  validation_logic : Option String
  source_reference : Option String
  effective_date : Option String
  related_rules : List String
deriving Repr, DecidableEq

/-- The `RuleUpdate` partial-update model (`models.py`): every field
optional, `None` meaning "not present in the update". -/
structure RuleUpdate where
  name : Option String := none
  description : Option String := none
  category : Option String := none
  obligation_level : Option String := none
  data_elements : Option (List String) := none
  conditions : Option (List String) := none
  actions : Option (List String) := none
  exceptions : Option (List String) := none
  thresholds : Option (List String) := none
  validation_logic : Option String := none
  source_reference : Option String := none
  effective_date : Option String := none
  related_rules : Option (List String) := none
deriving Repr, DecidableEq

/-- Validation of a whole `RuleUpdate` record: pydantic runs the two
`pre=True` validators of `models.py` on the `category` and
`obligation_level` fields (each returning `None` unchanged when the field
is absent); all other fields have no validator. -/
def validateRuleUpdate (u : RuleUpdate) : Except EnumValidationError RuleUpdate :=
  match RuleUpdate.validate_category u.category with
  | .error e => .error e
  | .ok c =>
    match RuleUpdate.validate_obligation_level u.obligation_level with
    | .error e => .error e
    | .ok o => .ok { u with category := c, obligation_level := o }

/-- Modelled from the spec: the repository `update` operation itself is not
under `src/` (only the `RuleUpdate` model is); per the spec, an update
"accepts a partial record (only present fields overwrite)" and "absent
fields are left untouched in storage". -/
def applyRuleUpdate (r : Rule) (u : RuleUpdate) : Rule :=
  { rule_id := r.rule_id
    name := u.name.getD r.name
    description := u.description.getD r.description
    category := u.category.getD r.category
    obligation_level := u.obligation_level.getD r.obligation_level
    data_elements := u.data_elements.getD r.data_elements
    conditions := u.conditions.getD r.conditions
    actions := u.actions.getD r.actions
    exceptions := u.exceptions.getD r.exceptions
    thresholds := u.thresholds.getD r.thresholds
    validation_logic := u.validation_logic.orElse (fun _ => r.validation_logic)
    source_reference := u.source_reference.orElse (fun _ => r.source_reference)
    effective_date := u.effective_date.orElse (fun _ => r.effective_date)
    related_rules := u.related_rules.getD r.related_rules }

/-! ### Interleaved `connect` (`db.py`)

`connect` holds no lock: the check `if not self._driver`, the driver
creation/assignment, the probe, and the final `return self._driver` are
separate steps between which another thread may run (the probe performs
network I/O and certainly yields).  Each step below is one atomic action on
the shared `_driver` field. -/

/-- Program counter of one thread running `Neo4jDatabase.connect` with a
healthy store (probe succeeds with the sentinel 1). -/
inductive ConnPC where
  | start
  | createAssign
  | probeStep
  | readReturn
  | done
deriving Repr, DecidableEq

/-- One thread: its position inside `connect` and the driver id it
eventually returns. -/
structure ConnThread where
  pc : ConnPC
  ret : Option Nat
deriving Repr, DecidableEq

/-- The shared fields touched by concurrent `connect` callers. -/
structure ConnShared where
  driver : Option Nat
  driversCreated : Nat
deriving Repr, DecidableEq

/-- One atomic step of a thread running `connect` against the shared
state: check `if not self._driver`; create a driver object and assign
`self._driver`; run the (successful) probe; read and return
`self._driver`. -/
def connectStep (s : ConnShared) (t : ConnThread) : ConnShared × ConnThread :=
  match t.pc with
  | .start =>
    match s.driver with
    | some _ => (s, { t with pc := .readReturn })
    | none => (s, { t with pc := .createAssign })
  | .createAssign =>
    (⟨some s.driversCreated, s.driversCreated + 1⟩, { t with pc := .probeStep })
  | .probeStep => (s, { t with pc := .readReturn })
  | .readReturn => (s, { t with pc := .done, ret := s.driver })
  | .done => (s, t)

/-- Run two threads under a schedule (`true` steps thread 1, `false` steps
thread 2). -/
def runSched : List Bool → ConnShared → ConnThread → ConnThread →
    ConnShared × ConnThread × ConnThread
  | [], s, t1, t2 => (s, t1, t2)
  | b :: bs, s, t1, t2 =>
    if b then
      let (s1, t1n) := connectStep s t1
      runSched bs s1 t1n t2
    else
      let (s1, t2n) := connectStep s t2
      runSched bs s1 t1 t2n

/-! ### Theorems -/

theorem validateEnum_mem_ok (field : String) (allowed : List String) (v : String)
    (h : ∃ c ∈ allowed, pyLower c = pyLower v) :
    ∃ c, c ∈ allowed ∧ pyLower c = pyLower v ∧
      validateEnum field allowed v = .ok c := by
  obtain ⟨c, hc, hlow⟩ := h
  have hcont : (allowed.map pyLower).contains (pyLower v) = true := by
    simp only [List.elem_eq_mem, decide_eq_true_eq, List.mem_map]
    exact ⟨c, hc, hlow⟩
  have hsome : (allowed.find? (fun x => pyLower v == pyLower x)).isSome := by
    rw [List.find?_isSome]
    exact ⟨c, hc, by simp [hlow]⟩
  obtain ⟨a, ha⟩ := Option.isSome_iff_exists.mp hsome
  have hpa : (pyLower v == pyLower a) = true :=
    @List.find?_some String (fun x => pyLower v == pyLower x) a allowed ha
  have hmem : a ∈ allowed :=
    @List.mem_of_find?_eq_some String (fun x => pyLower v == pyLower x) a allowed ha
  refine ⟨a, hmem, ?_, ?_⟩
  · exact (eq_of_beq hpa).symm
  · unfold validateEnum
    rw [if_pos hcont, ha]

theorem validateEnum_not_mem_error (field : String) (allowed : List String) (v : String)
    (h : ∀ c ∈ allowed, pyLower c ≠ pyLower v) :
    validateEnum field allowed v = .error ⟨field, v, allowed⟩ := by
  have hcont : ¬ ((allowed.map pyLower).contains (pyLower v) = true) := by
    simp only [List.elem_eq_mem, decide_eq_true_eq, List.mem_map]
    rintro ⟨c, hc, hlow⟩
    exact h c hc hlow
  unfold validateEnum
  rw [if_neg hcont]

/-- **C2**: for every input string for a rule's `category` or
`obligation_level` field, if its case-folded form equals the case-folded
form of some member of `RULE_CATEGORIES` / `OBLIGATION_LEVELS`, validation
accepts it and returns the configured member (canonical casing); otherwise
it fails with the enumeration error naming the field, the offending value
and the allowed set. -/
theorem enum_validation_case_insensitive_normalizes (v : String) :
    ((∃ c ∈ RULE_CATEGORIES, pyLower c = pyLower v) →
      ∃ c, c ∈ RULE_CATEGORIES ∧ pyLower c = pyLower v ∧
        RuleBase.validate_category v = .ok c) ∧
    ((∀ c ∈ RULE_CATEGORIES, pyLower c ≠ pyLower v) →
      RuleBase.validate_category v = .error ⟨"category", v, RULE_CATEGORIES⟩) ∧
    ((∃ c ∈ OBLIGATION_LEVELS, pyLower c = pyLower v) →
      ∃ c, c ∈ OBLIGATION_LEVELS ∧ pyLower c = pyLower v ∧
        RuleBase.validate_obligation_level v = .ok c) ∧
    ((∀ c ∈ OBLIGATION_LEVELS, pyLower c ≠ pyLower v) →
      RuleBase.validate_obligation_level v =
        .error ⟨"obligation_level", v, OBLIGATION_LEVELS⟩) := by
  refine ⟨fun h => ?_, fun h => ?_, fun h => ?_, fun h => ?_⟩
  · exact validateEnum_mem_ok "category" RULE_CATEGORIES v h
  · exact validateEnum_not_mem_error "category" RULE_CATEGORIES v h
  · exact validateEnum_mem_ok "obligation_level" OBLIGATION_LEVELS v h
  · exact validateEnum_not_mem_error "obligation_level" OBLIGATION_LEVELS v h

theorem enum_validation_witness :
    ∃ c, c ∈ RULE_CATEGORIES ∧ pyLower c = pyLower "VALIDATION" ∧
      RuleBase.validate_category "VALIDATION" = .ok c :=
  (enum_validation_case_insensitive_normalizes "VALIDATION").1 (by decide)

theorem connect_already_connected (st : DBState) (probe : ProbeOutcome) (d : Nat)
    (hd : st.driver = some d) : connect st probe = (.ok d, st) := by
  unfold connect
  rw [hd]

theorem erase_append_singleton (a : Nat) (l : List Nat) (h : a ∉ l) :
    (l ++ [a]).erase a = l := by
  rw [List.erase_append_right _ (by simpa using h)]
  simp

theorem get_session_spec {α : Type} (st : DBState) (probe : ProbeOutcome)
    (body : Nat → Except DBError α) (d : Nat) (hd : st.driver = some d) :
    get_session st probe body =
      (body st.nextSession,
       { st with
           openSessions := (st.openSessions ++ [st.nextSession]).erase st.nextSession,
           nextSession := st.nextSession + 1 }) := by
  have hconn : connect st probe = (.ok d, st) := connect_already_connected st probe d hd
  unfold get_session
  rw [hconn]

theorem get_session_spec_fresh {α : Type} (st : DBState) (probe : ProbeOutcome)
    (body : Nat → Except DBError α) (d : Nat) (hd : st.driver = some d)
    (hfresh : st.nextSession ∉ st.openSessions) :
    get_session st probe body =
      (body st.nextSession, { st with nextSession := st.nextSession + 1 }) := by
  rw [get_session_spec st probe body d hd,
    erase_append_singleton st.nextSession st.openSessions hfresh]

/-- **C3**: every acquisition of a scoped session via `get_session` closes
that session on every exit path — the body returning normally or raising —
and does not close the shared connection: the driver stays stored after the
session is released, and the set of open sessions is exactly what it was
before the acquisition. -/
theorem get_session_releases_session_keeps_driver {α : Type} (st : DBState)
    (probe : ProbeOutcome) (body : Nat → Except DBError α) (d : Nat)
    (hd : st.driver = some d) (hfresh : st.nextSession ∉ st.openSessions) :
    (get_session st probe body).1 = body st.nextSession ∧
    (get_session st probe body).2.openSessions = st.openSessions ∧
    (get_session st probe body).2.driver = some d := by
  rw [get_session_spec_fresh st probe body d hd hfresh]
  exact ⟨rfl, rfl, hd⟩

theorem get_session_release_witness :
    (get_session ⟨some 0, 1, [], 5⟩ (.value 1)
        (fun _ => (Except.error (.ServiceUnavailable "boom") : Except DBError Nat))).1
      = Except.error (.ServiceUnavailable "boom") ∧
    (get_session ⟨some 0, 1, [], 5⟩ (.value 1)
        (fun _ => (Except.error (.ServiceUnavailable "boom") : Except DBError Nat))).2.openSessions
      = [] ∧
    (get_session ⟨some 0, 1, [], 5⟩ (.value 1)
        (fun _ => (Except.error (.ServiceUnavailable "boom") : Except DBError Nat))).2.driver
      = some 0 :=
  get_session_releases_session_keeps_driver ⟨some 0, 1, [], 5⟩ (.value 1)
    (fun _ => (Except.error (.ServiceUnavailable "boom") : Except DBError Nat)) 0
    rfl (by decide)

/-- **C4**: for every query and parameter mapping (run on an established
connection), `fetch_one` returns none when the query matches zero rows and
the first row's key→value mapping when it matches exactly one row. -/
theorem fetch_one_none_or_first_row {V : Type} (st : DBState) (probe : ProbeOutcome)
    (store : Store V) (query : String) (params : Option (List (String × V))) (d : Nat)
    (hd : st.driver = some d) :
    (store query (orEmpty params) = [] →
      (fetch_one st probe store query params).1 = .ok none) ∧
    (∀ r, store query (orEmpty params) = [r] →
      (fetch_one st probe store query params).1 = .ok (some r.data)) := by
  constructor
  · intro h0
    unfold fetch_one
    rw [get_session_spec st probe _ d hd, h0]
    rfl
  · intro r h1
    unfold fetch_one
    rw [get_session_spec st probe _ d hd, h1]
    rfl

theorem fetch_one_witness :
    (fetch_one ⟨some 0, 1, [], 0⟩ (.value 1)
        (fun _ _ => ([] : List (NeoRecord Nat))) "MATCH (r:Rule) RETURN r" none).1
      = .ok none :=
  (fetch_one_none_or_first_row ⟨some 0, 1, [], 0⟩ (.value 1)
    (fun _ _ => ([] : List (NeoRecord Nat))) "MATCH (r:Rule) RETURN r" none 0 rfl).1 rfl

/-- **C5**: for every query and parameter mapping (run on an established
connection), `fetch_all` returns the eagerly materialized ordered list of
the rows' key→value mappings, one per row in store order, and the empty
list — an `.ok []`, never an absent value — when the query matches zero
rows. -/
theorem fetch_all_materializes_ordered_list {V : Type} (st : DBState)
    (probe : ProbeOutcome) (store : Store V) (query : String)
    (params : Option (List (String × V))) (d : Nat) (hd : st.driver = some d) :
    (fetch_all st probe store query params).1
      = .ok ((store query (orEmpty params)).map NeoRecord.data) ∧
    (store query (orEmpty params) = [] →
      (fetch_all st probe store query params).1 = .ok ([] : List (List (String × V)))) := by
  constructor
  · unfold fetch_all
    rw [get_session_spec st probe _ d hd]
  · intro h0
    unfold fetch_all
    rw [get_session_spec st probe _ d hd, h0]
    rfl

theorem fetch_all_witness :
    (fetch_all ⟨some 0, 1, [], 0⟩ (.value 1)
        (fun _ _ => ([] : List (NeoRecord Nat))) "MATCH (r:Rule) RETURN r" none).1
      = .ok ([] : List (List (String × Nat))) :=
  (fetch_all_materializes_ordered_list ⟨some 0, 1, [], 0⟩ (.value 1)
    (fun _ _ => ([] : List (NeoRecord Nat))) "MATCH (r:Rule) RETURN r" none 0 rfl).2 rfl

/-- **C9**: for every call to `execute_query`, the session the query ran in
is closed before the returned result handle reaches the caller: the
handle's backing session is not among the open sessions of the state
`execute_query` returns in. -/
theorem execute_query_returns_closed_session_handle {V : Type} (st : DBState)
    (probe : ProbeOutcome) (store : Store V) (query : String)
    (params : Option (List (String × V))) (d : Nat)
    (hd : st.driver = some d) (hfresh : st.nextSession ∉ st.openSessions) :
    ∀ r, (execute_query st probe store query params).1 = .ok r →
      r.session ∉ (execute_query st probe store query params).2.openSessions := by
  intro r hr
  have hq : execute_query st probe store query params
      = (.ok ⟨st.nextSession, store query (orEmpty params)⟩,
         { st with nextSession := st.nextSession + 1 }) := by
    unfold execute_query
    rw [get_session_spec_fresh st probe _ d hd hfresh]
  rw [hq] at hr ⊢
  have hr2 : (⟨st.nextSession, store query (orEmpty params)⟩ : QueryResult V) = r := by
    simpa using hr
  rw [← hr2]
  exact hfresh

theorem execute_query_witness :
    (⟨0, []⟩ : QueryResult Nat).session ∉
      (execute_query ⟨some 0, 1, [], 0⟩ (.value 1)
        (fun _ _ => ([] : List (NeoRecord Nat))) "MATCH (r:Rule) RETURN r" none).2.openSessions :=
  execute_query_returns_closed_session_handle ⟨some 0, 1, [], 0⟩ (.value 1)
    (fun _ _ => ([] : List (NeoRecord Nat))) "MATCH (r:Rule) RETURN r" none 0
    rfl (by decide) ⟨0, []⟩ rfl

theorem connect_probe_mismatch_eq (st : DBState) (v : Int)
    (h0 : st.driver = none) (hv : v ≠ 1) :
    connect st (.value v)
      = (.error (.ServiceUnavailable "Database connection test failed"),
         { st with driver := some st.driversCreated,
                   driversCreated := st.driversCreated + 1 }) := by
  unfold connect
  rw [h0]
  simp only
  rw [if_pos hv]

/-- **C1 (amended)**: when the liveness probe's round-trip query returns a
value different from the sentinel 1 while the transport succeeded,
`connect()` fails — but with `ServiceUnavailable("Database connection test
failed")`, the very same exception class as a plain transport failure
(distinguished only by its message), not with a distinct
`ConnectionVerificationFailed` error; no such error class exists in the
code. -/
theorem connect_probe_mismatch_raises_service_unavailable (st : DBState) (v : Int)
    (h0 : st.driver = none) (hv : v ≠ 1) :
    (connect st (.value v)).1
      = .error (.ServiceUnavailable "Database connection test failed") ∧
    errIsVerificationFailed (connect st (.value v)).1 = false := by
  rw [connect_probe_mismatch_eq st v h0 hv]
  exact ⟨rfl, rfl⟩

theorem connect_probe_mismatch_witness :
    (connect ⟨none, 0, [], 0⟩ (.value 2)).1
      = .error (.ServiceUnavailable "Database connection test failed") ∧
    errIsVerificationFailed (connect ⟨none, 0, [], 0⟩ (.value 2)).1 = false :=
  connect_probe_mismatch_raises_service_unavailable ⟨none, 0, [], 0⟩ 2 rfl (by decide)

/-- **C1, as the claim states it, is false on the code**: on a fresh state,
a successful transport whose probe returns 2 (≠ the sentinel 1) makes
`connect` fail with the plain-transport error class `ServiceUnavailable`,
not with an error distinct from it: `errIsVerificationFailed` is `false`
on the result, and the raised error is literally a `ServiceUnavailable`. -/
theorem connect_probe_mismatch_not_distinct_error :
    (connect ⟨none, 0, [], 0⟩ (.value 2)).1
      = .error (.ServiceUnavailable "Database connection test failed") ∧
    errIsVerificationFailed (connect ⟨none, 0, [], 0⟩ (.value 2)).1 = false :=
  ⟨rfl, rfl⟩

/-- **C10**: if `connect()` raises during the liveness probe — after the
driver object has been created and stored — the manager keeps that driver
(`_driver` is not reset), and every subsequent `connect()` call returns the
stored driver unchanged for *any* probe outcome, i.e. without repeating the
probe. -/
theorem connect_failure_keeps_driver_no_reprobe (st st2 : DBState) (v : Int)
    (p : ProbeOutcome) (d : Nat) (m : String) :
    (st.driver = none → v ≠ 1 →
      (connect st (.value v)).1
        = .error (.ServiceUnavailable "Database connection test failed") ∧
      (connect st (.value v)).2.driver = some st.driversCreated) ∧
    (st.driver = none →
      (connect st (.transportFail m)).1 = .error (.ServiceUnavailable m) ∧
      (connect st (.transportFail m)).2.driver = some st.driversCreated) ∧
    (st2.driver = some d → connect st2 p = (.ok d, st2)) := by
  refine ⟨fun h0 hv => ?_, fun h0 => ?_, fun h2 => ?_⟩
  · rw [connect_probe_mismatch_eq st v h0 hv]
    exact ⟨rfl, rfl⟩
  · unfold connect
    rw [h0]
    exact ⟨rfl, rfl⟩
  · exact connect_already_connected st2 p d h2

theorem constraintsLoop_ok_iff (ex : String → Except DBError Unit) (cs : List String) :
    constraintsLoop ex cs = .ok () ↔ ∀ c ∈ cs, ex c = .ok () := by
  induction cs with
  | nil => simp [constraintsLoop]
  | cons c cs ih =>
    cases hc : ex c with
    | error e => simp [constraintsLoop, hc]
    | ok u =>
      cases u
      simp [constraintsLoop, hc, ih]

theorem constraintsLoop_error_reraised (ex : String → Except DBError Unit)
    (cs : List String) :
    constraintsLoop ex cs = .ok () ∨
      ∃ e, constraintsLoop ex cs = .error e ∧ ∃ c ∈ cs, ex c = .error e := by
  induction cs with
  | nil => exact Or.inl rfl
  | cons c cs ih =>
    cases hc : ex c with
    | error e =>
      refine Or.inr ⟨e, ?_, c, by simp, hc⟩
      simp [constraintsLoop, hc]
    | ok u =>
      cases u
      cases ih with
      | inl h => exact Or.inl (by simp [constraintsLoop, hc, h])
      | inr h =>
        obtain ⟨e, he, c2, hc2, hex⟩ := h
        refine Or.inr ⟨e, ?_, c2, by simp [hc2], hex⟩
        simp [constraintsLoop, hc, he]

theorem mem_applyIfNotExists_self (l : List String) (c : String) :
    c ∈ applyIfNotExists l c := by
  unfold applyIfNotExists
  by_cases h : c ∈ l <;> simp [h]

theorem mem_applyIfNotExists_of_mem (l : List String) (c a : String) (h : a ∈ l) :
    a ∈ applyIfNotExists l c := by
  unfold applyIfNotExists
  by_cases hc : c ∈ l <;> simp [hc, h]

theorem applyIfNotExists_of_mem (l : List String) (c : String) (h : c ∈ l) :
    applyIfNotExists l c = l := by
  simp [applyIfNotExists, h]

theorem foldl_applyIfNotExists_of_all_mem (cs : List String) (l : List String)
    (h : ∀ c ∈ cs, c ∈ l) : cs.foldl applyIfNotExists l = l := by
  induction cs generalizing l with
  | nil => rfl
  | cons c cs ih =>
    simp only [List.foldl]
    rw [applyIfNotExists_of_mem l c (h c (by simp))]
    exact ih l (fun x hx => h x (by simp [hx]))

theorem mem_foldl_applyIfNotExists_of_mem (cs : List String) (l : List String)
    (a : String) (h : a ∈ l) : a ∈ cs.foldl applyIfNotExists l := by
  induction cs generalizing l with
  | nil => exact h
  | cons c cs ih => exact ih _ (mem_applyIfNotExists_of_mem _ _ _ h)

theorem mem_foldl_applyIfNotExists (cs : List String) (l : List String) :
    ∀ c ∈ cs, c ∈ cs.foldl applyIfNotExists l := by
  induction cs generalizing l with
  | nil => intro c hc; cases hc
  | cons c0 cs ih =>
    intro c hc
    rcases List.mem_cons.mp hc with h | h
    · subst h
      exact mem_foldl_applyIfNotExists_of_mem cs _ _ (mem_applyIfNotExists_self _ _)
    · exact ih _ c h

set_option maxRecDepth 4000 in
/-- **C6**: `create_constraints` issues exactly the three uniqueness
constraints (on `Rule.rule_id`, `DataElement.element_id`, `Category.name`),
each in `IF NOT EXISTS` form, so a repeated run against a store with
`IF NOT EXISTS` semantics is a no-op; `create_constraints` succeeds exactly
when every statement succeeds — any failure is re-raised as-is, never
swallowed. -/
theorem create_constraints_if_not_exists_and_reraise :
    constraints.length = 3 ∧
    (∀ c ∈ constraints, List.IsInfix "IF NOT EXISTS".data c.data) ∧
    (∃ c ∈ constraints, List.IsInfix "(r:Rule) REQUIRE r.rule_id IS UNIQUE".data c.data) ∧
    (∃ c ∈ constraints, List.IsInfix "(d:DataElement) REQUIRE d.element_id IS UNIQUE".data c.data) ∧
    (∃ c ∈ constraints, List.IsInfix "(c:Category) REQUIRE c.name IS UNIQUE".data c.data) ∧
    (∀ ex : String → Except DBError Unit,
      (create_constraints ex = .ok () ↔ ∀ c ∈ constraints, ex c = .ok ()) ∧
      (create_constraints ex = .ok () ∨
        ∃ e, create_constraints ex = .error e ∧ ∃ c ∈ constraints, ex c = .error e)) ∧
    (∀ existing : List String,
      runConstraints (runConstraints existing) = runConstraints existing) := by
  refine ⟨rfl, by decide, by decide, by decide, by decide, fun ex => ?_, fun existing => ?_⟩
  · exact ⟨constraintsLoop_ok_iff ex constraints,
      constraintsLoop_error_reraised ex constraints⟩
  · exact foldl_applyIfNotExists_of_all_mem constraints (runConstraints existing)
      (mem_foldl_applyIfNotExists constraints existing)

theorem create_constraints_witness :
    create_constraints (fun _ => Except.ok ()) = .ok () :=
  ((create_constraints_if_not_exists_and_reraise.2.2.2.2.2.1
    (fun _ => Except.ok ())).1).mpr (fun _ _ => rfl)

/-- A concrete stored rule, used to instantiate frame theorems. -/
def sampleRule : Rule :=
  { rule_id := "R001"
    name := "Income Validation"
    description := "Customer income must be greater than zero"
    category := "validation"
    obligation_level := "mandatory"
    data_elements := ["customer_income"]
    conditions := []
    actions := []
    exceptions := []
    thresholds := []
    validation_logic := none
    source_reference := none
    effective_date := some "2025-01-01"
    related_rules := [] }

/-- **C7**: for every partial-update record, enumeration validation runs
only on present fields — an absent (`none`) `category`/`obligation_level`
passes through unvalidated and unchanged — and applying an update leaves
every field that is absent from the record unchanged on the stored rule. -/
theorem rule_update_validates_and_overwrites_only_present_fields
    (r : Rule) (u : RuleUpdate) :
    RuleUpdate.validate_category none = .ok none ∧
    RuleUpdate.validate_obligation_level none = .ok none ∧
    (u.category = none ∧ u.obligation_level = none → validateRuleUpdate u = .ok u) ∧
    (u.name = none → (applyRuleUpdate r u).name = r.name) ∧
    (u.description = none → (applyRuleUpdate r u).description = r.description) ∧
    (u.category = none → (applyRuleUpdate r u).category = r.category) ∧
    (u.obligation_level = none →
      (applyRuleUpdate r u).obligation_level = r.obligation_level) ∧
    (u.data_elements = none → (applyRuleUpdate r u).data_elements = r.data_elements) ∧
    (u.conditions = none → (applyRuleUpdate r u).conditions = r.conditions) ∧
    (u.actions = none → (applyRuleUpdate r u).actions = r.actions) ∧
    (u.exceptions = none → (applyRuleUpdate r u).exceptions = r.exceptions) ∧
    (u.thresholds = none → (applyRuleUpdate r u).thresholds = r.thresholds) ∧
    (u.validation_logic = none →
      (applyRuleUpdate r u).validation_logic = r.validation_logic) ∧
    (u.source_reference = none →
      (applyRuleUpdate r u).source_reference = r.source_reference) ∧
    (u.effective_date = none →
      (applyRuleUpdate r u).effective_date = r.effective_date) ∧
    (u.related_rules = none → (applyRuleUpdate r u).related_rules = r.related_rules) ∧
    (applyRuleUpdate r u).rule_id = r.rule_id := by
  obtain ⟨un, ud, uc, uo, ude, uco, ua, uex, uth, uv, us, uef, ur⟩ := u
  refine ⟨rfl, rfl, ?_, ?_, ?_, ?_, ?_, ?_, ?_, ?_, ?_, ?_, ?_, ?_, ?_, ?_, rfl⟩ <;>
    intro h <;>
    simp_all [validateRuleUpdate, applyRuleUpdate,
      RuleUpdate.validate_category, RuleUpdate.validate_obligation_level]

theorem rule_update_witness :
    validateRuleUpdate { description := some "new text" }
        = .ok { description := some "new text" } ∧
    (applyRuleUpdate sampleRule { description := some "new text" }).category
        = sampleRule.category ∧
    (applyRuleUpdate sampleRule { description := some "new text" }).data_elements
        = sampleRule.data_elements :=
  ⟨(rule_update_validates_and_overwrites_only_present_fields sampleRule
      { description := some "new text" }).2.2.1 ⟨rfl, rfl⟩,
   (rule_update_validates_and_overwrites_only_present_fields sampleRule
      { description := some "new text" }).2.2.2.2.2.1 rfl,
   (rule_update_validates_and_overwrites_only_present_fields sampleRule
      { description := some "new text" }).2.2.2.2.2.2.2.1 rfl⟩

/-- **C8 fails on the code**: `Neo4jDatabase.connect` (and `__new__`) take
no lock, so two concurrent first callers can both pass the
`if not self._driver` check before either assigns.  Under that interleaving
two driver objects are created (the second overwrites the first, which
leaks); only fully sequential execution creates exactly one.  Both threads
run to completion in both schedules. -/
theorem concurrent_connect_can_create_two_drivers :
    (runSched [true, false, true, false, true, false, true, false]
        ⟨none, 0⟩ ⟨.start, none⟩ ⟨.start, none⟩).1.driversCreated = 2 ∧
    (runSched [true, false, true, false, true, false, true, false]
        ⟨none, 0⟩ ⟨.start, none⟩ ⟨.start, none⟩).2.1.pc = ConnPC.done ∧
    (runSched [true, false, true, false, true, false, true, false]
        ⟨none, 0⟩ ⟨.start, none⟩ ⟨.start, none⟩).2.2.pc = ConnPC.done ∧
    (runSched [true, true, true, true, false, false, false, false]
        ⟨none, 0⟩ ⟨.start, none⟩ ⟨.start, none⟩).1.driversCreated = 1 ∧
    (runSched [true, true, true, true, false, false, false, false]
        ⟨none, 0⟩ ⟨.start, none⟩ ⟨.start, none⟩).2.1.pc = ConnPC.done ∧
    (runSched [true, true, true, true, false, false, false, false]
        ⟨none, 0⟩ ⟨.start, none⟩ ⟨.start, none⟩).2.2.pc = ConnPC.done :=
  ⟨rfl, rfl, rfl, rfl, rfl, rfl⟩

theorem connect_keeps_driver_witness :
    (connect ⟨none, 0, [], 0⟩ (.value 2)).2.driver = some 0 ∧
    connect ⟨some 0, 1, [], 0⟩ (.value 7) = (.ok 0, ⟨some 0, 1, [], 0⟩) :=
  ⟨((connect_failure_keeps_driver_no_reprobe ⟨none, 0, [], 0⟩ ⟨some 0, 1, [], 0⟩
      2 (.value 7) 0 "m").1 rfl (by decide)).2,
   (connect_failure_keeps_driver_no_reprobe ⟨none, 0, [], 0⟩ ⟨some 0, 1, [], 0⟩
      2 (.value 7) 0 "m").2.2 rfl⟩
